import Mathlib

/-!
Verification of `libcmd` (package `libcmd`, file `src/libcmd.go`): a small
library that runs named scripts inside ephemeral Docker containers and
returns their captured output.

The Go source is shallowly embedded below.  Byte streams are modelled as
`List Nat` (each element a byte value), Go `string` results that carry raw
log bytes are likewise `List Nat`, and every interaction with the Docker
daemon (create / start / inspect / logs transport / remove) is supplied by
an explicit oracle so that each control-flow path of the Go functions is a
constructive case of the Lean definitions.  Side effects that matter to the
specification (container creation and removal) are recorded in an explicit
event trace.
-/

namespace Libcmd

/-- Errors appearing in the Go code.  `commandResponse` is the package-level
`ErrCommandResponse`; `connectionRefused` is `docker.ErrConnectionRefused`;
`decodeTruncated` and `decodeUnrecognized` are the decode errors of the log
demultiplexer; `transport msg` wraps an error produced by the networking
layer (`net.Dial` / `clientconn.Do`), carrying its message string. -/
inductive GoError where
  | commandResponse
  | connectionRefused
  | decodeTruncated
  | decodeUnrecognized
  | transport (msg : String)
deriving DecidableEq, Repr

/-- The configuration struct `CmdConfig` of `libcmd.go` (lines 40-45). -/
structure CmdConfig where
  CommandsDir : String
  DockerEndpoint : String
  ContainerRepository : String
  ContainerTag : String
deriving DecidableEq, Repr

/-- The default-options table `cmdConfigDefaultOpts` (lines 27-32). -/
def cmdConfigDefaultOpts : List (String × String) :=
  [("CommandsDir", "/root/commands"),
   ("DockerEndpoint", "unix:///var/run/docker.sock"),
   ("ContainerRepository", "freighterio/cmd"),
   ("ContainerTag", "latest")]

/-- Lookup of a key in an options map (Go `value, ok := opts[key]`),
modelled on an association list. -/
def optsLookup (opts : List (String × String)) (key : String) : Option String :=
  (opts.find? (fun p => p.1 == key)).map (fun p => p.2)

/-- The configuration-assignment part of `InitCmdContainer` (lines 47-56):
for each key of `cmdConfigDefaultOpts` the corresponding field of the fresh
`CmdConfig` is set to the supplied option value when the key is present in
`opts`, and to the table's default otherwise.  (The reflection loop of the
Go code touches each of the four fields exactly once; keys of `opts` that
are not field names are never read.)  The subsequent client construction
and image pull (lines 58-65) perform no further configuration writes. -/
def InitCmdContainer (opts : List (String × String)) : CmdConfig :=
  { CommandsDir := (optsLookup opts "CommandsDir").getD "/root/commands"
    DockerEndpoint := (optsLookup opts "DockerEndpoint").getD "unix:///var/run/docker.sock"
    ContainerRepository := (optsLookup opts "ContainerRepository").getD "freighterio/cmd"
    ContainerTag := (optsLookup opts "ContainerTag").getD "latest" }

/-- `time.Millisecond` in nanoseconds (Go `time.Duration` counts
nanoseconds). -/
def timeMillisecond : Nat := 1000000

/-- The argument of the `time.Sleep` call in `Run`'s poll loop (line 95 of
`libcmd.go`): the Go expression is `time.Millisecond + 100`, the untyped
constant `100` being converted to `time.Duration`, i.e. 100 nanoseconds. -/
def sleepIntervalNs : Nat := timeMillisecond + 100

/-- `strings.Contains s pat`: `pat` occurs as a contiguous substring of
`s`. -/
def strContainsSub (s pat : String) : Bool :=
  (s.toList.tails).any (fun t => pat.toList.isPrefixOf t)

/-- The two decode errors of the log demultiplexer: a truncated frame and
an unrecognized stream discriminator. -/
inductive DecodeError where
  | truncated
  | unrecognized
deriving DecidableEq, Repr

/-- The `GoError` a decode error surfaces as. -/
def DecodeError.toGoError : DecodeError → GoError
  | .truncated => .decodeTruncated
  | .unrecognized => .decodeUnrecognized

/-- The 4-byte big-endian unsigned integer `[b4, b5, b6, b7]` of a frame
header. -/
def beLen (b4 b5 b6 b7 : Nat) : Nat :=
  ((b4 * 256 + b5) * 256 + b6) * 256 + b7

/-- Modelled from the spec: the demultiplexer `stdCopy` invoked by
`makeRequest` (line 213 of `libcmd.go`) is not among the repository's
source files; this is its loop, faithful to the spec's wire format.  The
stream is a sequence of frames: an 8-byte header of a 1-byte discriminator
(1 = stdout, 2 = stderr, anything else an `decodeUnrecognized` error),
3 padding bytes and a 4-byte big-endian payload length, then that many
payload bytes, appended to the buffer the discriminator selects.  A clean
end of stream finishes; a frame whose declared length exceeds the bytes
remaining (a truncated trailing frame, including a truncated header) is a
`decodeTruncated` error.  `out` and `errb` accumulate the stdout and
stderr buffers. -/
def stdCopyGo (input out errb : List Nat) : Except DecodeError (List Nat × List Nat) :=
  match input with
  | [] => .ok (out, errb)
  | d :: _ :: _ :: _ :: b4 :: b5 :: b6 :: b7 :: rest =>
    let n := beLen b4 b5 b6 b7
    if n ≤ rest.length then
      if d = 1 then stdCopyGo (rest.drop n) (out ++ rest.take n) errb
      else if d = 2 then stdCopyGo (rest.drop n) out (errb ++ rest.take n)
      else .error .unrecognized
    else .error .truncated
  | _ => .error .truncated
termination_by input.length
decreasing_by
  all_goals simp [List.length_drop]; omega

/-- Modelled from the spec: `stdCopy` on a whole stream, starting from
empty stdout and stderr buffers. -/
def stdCopy (input : List Nat) : Except DecodeError (List Nat × List Nat) :=
  stdCopyGo input [] []

/-- The transport oracle behind `makeRequest`: the outcome of
`net.Dial("unix", address)` as a function of the address dialed, the
outcome of `clientconn.Do` (on success, the raw bytes of the response
body), and the response status code.  Transport-layer errors are opaque
message strings (the Go networking errors are never the `docker` package's
sentinel values). -/
structure Transport where
  dial : String → Except String Unit
  doResp : Except String (List Nat)
  status : Int

/-- The result of `makeRequest`: the address passed to `net.Dial`, the
demultiplexed stdout and stderr bytes, the status code, and the error. -/
structure RequestResult where
  dialed : String
  stdout : List Nat
  stderr : List Nat
  status : Int
  error : Option GoError
deriving DecidableEq, Repr

/-- `makeRequest` (lines 187-219 of `libcmd.go`).  The request is built for
the given method and path; the address dialed is the literal
`"/var/run/docker.sock"` (line 194) — the configuration is in scope as the
package-level `config` but is not read anywhere in the function, which is
why it appears here only as an unused parameter.  A `net.Dial` failure or a
`clientconn.Do` failure returns that error unchanged (lines 195-198 and
201-204); the subsequent `if err != nil` block containing the
connection-refused classification (lines 206-211) is unreachable, since
line 202-204 already returned whenever `err` was non-nil, so it contributes
no case here.  Otherwise the body is demultiplexed by `stdCopy`, whose
error propagates, and the two buffers are read back in full. -/
def makeRequest (cfg : CmdConfig) (t : Transport) (method path : String) :
    RequestResult :=
  match t.dial "/var/run/docker.sock" with
  | .error msg => ⟨"/var/run/docker.sock", [], [], -1, some (.transport msg)⟩
  | .ok _ =>
    match t.doResp with
    | .error msg => ⟨"/var/run/docker.sock", [], [], -1, some (.transport msg)⟩
    | .ok body =>
      match stdCopy body with
      | .error de => ⟨"/var/run/docker.sock", [], [], -1, some de.toGoError⟩
      | .ok (bOut, bErr) => ⟨"/var/run/docker.sock", bOut, bErr, t.status, none⟩

/-- `getLogs` (lines 172-185 of `libcmd.go`): issue the logs request for
the container; on a request error return it with an empty payload; when
the demultiplexed stderr is non-empty return the stderr bytes together
with `ErrCommandResponse`; otherwise return the stdout bytes and no
error. -/
def getLogs (cfg : CmdConfig) (t : Transport) (containerId : String) :
    List Nat × Option GoError :=
  let r := makeRequest cfg t "GET"
    ("/containers/" ++ containerId ++ "/logs?follow=0&stderr=1&stdout=1")
  match r.error with
  | some e => ([], some e)
  | none =>
    if r.stderr.length ≠ 0 then (r.stderr, some .commandResponse)
    else (r.stdout, none)

/-- Docker-daemon calls `Run` performs, recorded as an event trace.
`create` carries the image reference and the command line handed to
`createContainer`; the other events carry the container id they act on. -/
inductive Event where
  | create (image : String) (cmd : List String)
  | start (id : String)
  | inspect (id : String)
  | logs (id : String)
  | remove (id : String)
deriving DecidableEq, Repr

/-- Whether an event is a `remove`. -/
def Event.isRemove : Event → Bool
  | .remove _ => true
  | _ => false

/-- Whether an event is a `create`. -/
def Event.isCreate : Event → Bool
  | .create _ _ => true
  | _ => false

/-- The Docker-side oracle for one `Run` call: the outcome of
`createContainer` (on success, the id the daemon assigned), the outcome of
`startContainer`, the successive outcomes of `InspectContainer` (on
success, the container's `FinishedAt` timestamp, with `0` standing for the
zero time `time.Time\x7b\x7d`), and the transport used by `getLogs`.
`removeResult` is the outcome of the deferred `removeContainer`, which
`Run` discards. -/
structure RunOracle where
  createResult : Except GoError String
  startResult : Except GoError Unit
  inspects : List (Except GoError Nat)
  transport : Transport
  removeResult : Except GoError Unit

/-- Outcome of `Run`'s poll loop (lines 86-96 of `libcmd.go`), together
with the number of `InspectContainer` calls made: the loop breaks once an
inspect succeeds with a non-zero `FinishedAt` (`finished`), returns the
error of a failing inspect (`failed`), and never exits otherwise — when
the oracle's inspect list is exhausted with every result `0`, the Go loop
would keep spinning, which `diverged` records. -/
inductive PollResult where
  | finished (calls : Nat)
  | failed (e : GoError) (calls : Nat)
  | diverged
deriving DecidableEq, Repr

/-- The poll loop of `Run` over the successive inspect outcomes. -/
def pollLoop : List (Except GoError Nat) → PollResult
  | [] => .diverged
  | .error e :: _ => .failed e 1
  | .ok t :: rest =>
    if t = 0 then
      match pollLoop rest with
      | .diverged => .diverged
      | .failed e n => .failed e (n + 1)
      | .finished n => .finished (n + 1)
    else .finished 1

/-- What a completed `Run` call returned and did: the output string (as
bytes), the error, and the trace of daemon calls in order. -/
structure RunResult where
  output : List Nat
  error : Option GoError
  events : List Event
deriving DecidableEq, Repr

/-- `Run` (lines 73-103 of `libcmd.go`).  The command line is
`["bash", CommandsDir + "/" + op + ".sh"]` with the caller's arguments
appended; the container is created from `ContainerRepository +
":" + ContainerTag`.  A create failure returns that error at once, with
nothing deferred; after a successful create, `defer removeContainer` makes
`remove` the final event of every remaining path.  A start failure, an
inspect failure and a `getLogs` failure each return `("", err)`; on
success the `getLogs` payload is returned with no error.  `none` is the
case in which the poll loop never terminates, so the Go call never
returns. -/
def Run (cfg : CmdConfig) (op : String) (args : List String) (o : RunOracle) :
    Option RunResult :=
  let cmd := ["bash", cfg.CommandsDir ++ "/" ++ op ++ ".sh"] ++ args
  let image := cfg.ContainerRepository ++ ":" ++ cfg.ContainerTag
  match o.createResult with
  | .error e => some ⟨[], some e, [.create image cmd]⟩
  | .ok cid =>
    match o.startResult with
    | .error e => some ⟨[], some e, [.create image cmd, .start cid, .remove cid]⟩
    | .ok _ =>
      match pollLoop o.inspects with
      | .diverged => none
      | .failed e n =>
        some ⟨[], some e,
          [.create image cmd, .start cid] ++ List.replicate n (.inspect cid)
            ++ [.remove cid]⟩
      | .finished n =>
        match getLogs cfg o.transport cid with
        | (_, some e) =>
          some ⟨[], some e,
            [.create image cmd, .start cid] ++ List.replicate n (.inspect cid)
              ++ [.logs cid, .remove cid]⟩
        | (out, none) =>
          some ⟨out, none,
            [.create image cmd, .start cid] ++ List.replicate n (.inspect cid)
              ++ [.logs cid, .remove cid]⟩

/-! Frame encoding, used to state what the demultiplexer does on
well-formed streams. -/

/-- The 4-byte big-endian encoding of a payload length `n < 2^32`. -/
def be4 (n : Nat) : List Nat :=
  [n / 2 ^ 24 % 256, n / 2 ^ 16 % 256, n / 2 ^ 8 % 256, n % 256]

/-- The wire encoding of one frame: discriminator byte, three padding
bytes, big-endian length, payload. -/
def encodeFrame (f : Nat × List Nat) : List Nat :=
  f.1 :: 0 :: 0 :: 0 :: be4 f.2.length ++ f.2

/-- The wire encoding of a sequence of frames. -/
def encodeStream : List (Nat × List Nat) → List Nat
  | [] => []
  | f :: rest => encodeFrame f ++ encodeStream rest

/-- All frame payloads with discriminator `d`, concatenated in stream
order. -/
def streamConcat (d : Nat) : List (Nat × List Nat) → List Nat
  | [] => []
  | f :: rest => (if f.1 = d then f.2 else []) ++ streamConcat d rest

/-- A frame list is well formed when every discriminator is 1 or 2 and
every payload length fits the 4-byte length field. -/
def framesWF (frames : List (Nat × List Nat)) : Bool :=
  frames.all (fun f => (f.1 == 1 || f.1 == 2) && f.2.length < 2 ^ 32)

/-! Concrete instances used to exercise the definitions. -/

/-- A transport whose dial and request both succeed, yielding `body` as the
raw response bytes. -/
def transportOk (body : List Nat) : Transport :=
  ⟨fun _ => .ok (), .ok body, 200⟩

/-- A transport whose `net.Dial` fails with the message `msg`. -/
def transportDialFail (msg : String) : Transport :=
  ⟨fun _ => .error msg, .error msg, -1⟩

/-- The configuration produced by `InitCmdContainer` with an empty options
map: every field at its default. -/
def cfgDefault : CmdConfig := InitCmdContainer []

/-- The bytes of the string "boom". -/
def boomBytes : List Nat := [98, 111, 111, 109]

/-- A log stream holding a single stderr frame with payload "boom". -/
def boomFrame : List Nat := [2, 0, 0, 0, 0, 0, 0, 4] ++ boomBytes

/-- An oracle for a run whose container logs are a single stderr frame
"boom": create and start succeed, the first inspect reports a non-zero
finish time. -/
def oracleBoom : RunOracle :=
  ⟨.ok "c1", .ok (), [.ok 7], transportOk boomFrame, .ok ()⟩

/-- An oracle for a run whose `startContainer` fails after a successful
create. -/
def oracleStartFail : RunOracle :=
  ⟨.ok "c9", .error (.transport "start boom"), [], transportOk [], .ok ()⟩

/-- The example frame list of the specification:
`[(stdout, "A"), (stderr, "B"), (stdout, "C")]` as bytes. -/
def exFrames : List (Nat × List Nat) := [(1, [65]), (2, [66]), (1, [67])]

/-- The result of `Run cfgDefault "noop1" [] oracleStartFail`. -/
def runStartFail1 : RunResult :=
  ⟨[], some (.transport "start boom"),
    [.create "freighterio/cmd:latest" ["bash", "/root/commands/noop1.sh"],
     .start "c9", .remove "c9"]⟩

/-- The result of `Run cfgDefault "noop6" ["a", "b"] oracleStartFail`. -/
def runStartFail6 : RunResult :=
  ⟨[], some (.transport "start boom"),
    [.create "freighterio/cmd:latest" ["bash", "/root/commands/noop6.sh", "a", "b"],
     .start "c9", .remove "c9"]⟩

/-- The result of `Run cfgDefault "noop10" [] oracleStartFail`. -/
def runStartFail10 : RunResult :=
  ⟨[], some (.transport "start boom"),
    [.create "freighterio/cmd:latest" ["bash", "/root/commands/noop10.sh"],
     .start "c9", .remove "c9"]⟩

/-- Decoding the 4-byte big-endian encoding gives the length back. -/
theorem beLen_be4 (n : Nat) (h : n < 2 ^ 32) :
    beLen (n / 2 ^ 24 % 256) (n / 2 ^ 16 % 256) (n / 2 ^ 8 % 256) (n % 256) = n := by
  unfold beLen
  omega

/-- One decoding step of `stdCopyGo` across the encoding of a single frame
with a legal discriminator. -/
theorem stdCopyGo_encodeFrame_append (d : Nat) (p tail out errb : List Nat)
    (hd : d = 1 ∨ d = 2) (hl : p.length < 2 ^ 32) :
    stdCopyGo (encodeFrame (d, p) ++ tail) out errb =
      stdCopyGo tail (out ++ (if d = 1 then p else []))
        (errb ++ (if d = 2 then p else [])) := by
  have hbe : beLen (p.length / 2 ^ 24 % 256) (p.length / 2 ^ 16 % 256)
      (p.length / 2 ^ 8 % 256) (p.length % 256) = p.length := beLen_be4 _ hl
  have hlen : p.length ≤ (p ++ tail).length := by
    simp [List.length_append]
  have htake : (p ++ tail).take p.length = p := List.take_left p tail
  have hdrop : (p ++ tail).drop p.length = tail := List.drop_left p tail
  rcases hd with h1 | h2
  · subst h1
    rw [encodeFrame]
    simp only [List.cons_append, List.append_assoc, be4]
    rw [stdCopyGo]
    simp only [List.cons_append, hbe, htake, hdrop, if_pos hlen, if_pos rfl]
    simp
  · subst h2
    rw [encodeFrame]
    simp only [List.cons_append, List.append_assoc, be4]
    rw [stdCopyGo]
    simp only [List.cons_append, hbe, htake, hdrop, if_pos hlen]
    norm_num

/-- Decoding the encoding of a well-formed frame list followed by any tail
consumes the frames into the two buffers and continues with the tail. -/
theorem stdCopyGo_encodeStream_append (frames : List (Nat × List Nat))
    (tail out errb : List Nat) (h : framesWF frames = true) :
    stdCopyGo (encodeStream frames ++ tail) out errb =
      stdCopyGo tail (out ++ streamConcat 1 frames) (errb ++ streamConcat 2 frames) := by
  induction frames generalizing out errb with
  | nil => simp [encodeStream, streamConcat]
  | cons f rest ih =>
    have hf : (f.1 = 1 ∨ f.1 = 2) ∧ f.2.length < 2 ^ 32 := by
      have := (List.all_eq_true.mp h) f (by simp)
      simpa [Bool.or_eq_true, beq_iff_eq, decide_eq_true_eq] using this
    have hrest : framesWF rest = true := by
      apply List.all_eq_true.mpr
      intro x hx
      exact (List.all_eq_true.mp h) x (by simp [hx])
    rw [encodeStream, List.append_assoc]
    have hfe : (f.1, f.2) = f := rfl
    rw [← hfe, stdCopyGo_encodeFrame_append f.1 f.2 _ out errb hf.1 hf.2,
      ih _ _ hrest]
    rw [streamConcat, streamConcat]
    simp [List.append_assoc]

/-- C3: demultiplexing a byte stream that is a sequence of well-formed
frames (8-byte header of a discriminator byte with 1 = stdout and
2 = stderr, 3 padding bytes and a 4-byte big-endian payload length, then
that many payload bytes) appends each payload to the buffer its
discriminator selects, preserving intra-stream order. -/
theorem C3_demux_wellformed (frames : List (Nat × List Nat))
    (h : framesWF frames = true) :
    stdCopy (encodeStream frames) =
      .ok (streamConcat 1 frames, streamConcat 2 frames) := by
  have hgo := stdCopyGo_encodeStream_append frames [] [] [] h
  simpa [stdCopy, stdCopyGo] using hgo

/-- Witness for C3 at the spec's example: frames
`[(stdout, "A"), (stderr, "B"), (stdout, "C")]` demultiplex to
stdout = "AC" and stderr = "B". -/
theorem C3_demux_wellformed_witness :
    framesWF exFrames = true ∧
    stdCopy (encodeStream exFrames) = .ok ([65, 67], [66]) := by
  have h : framesWF exFrames = true := by decide
  refine ⟨h, ?_⟩
  rw [C3_demux_wellformed exFrames h]
  rfl

/-- C4: a stream ending in a truncated frame (declared payload length
exceeding the bytes remaining) decodes to the truncated-frame error, a
stream holding a frame with a discriminator other than 1 or 2 decodes to
the unrecognized-discriminator error, and `getLogs` propagates any decode
error of the response body instead of returning partial output. -/
theorem C4_decode_errors :
    (∀ frames d n payload, framesWF frames = true → n < 2 ^ 32 →
      payload.length < n →
      stdCopy (encodeStream frames ++ d :: 0 :: 0 :: 0 :: be4 n ++ payload) =
        .error .truncated) ∧
    (∀ frames d p tail, framesWF frames = true → ¬d = 1 → ¬d = 2 →
      p.length < 2 ^ 32 →
      stdCopy (encodeStream frames ++ encodeFrame (d, p) ++ tail) =
        .error .unrecognized) ∧
    (∀ cfg cid body de, stdCopy body = .error de →
      getLogs cfg (transportOk body) cid = ([], some de.toGoError)) := by
  refine ⟨?_, ?_, ?_⟩
  · intro frames d n payload hwf hn hp
    unfold stdCopy
    rw [List.append_assoc, stdCopyGo_encodeStream_append frames _ [] [] hwf]
    rw [be4]
    simp only [List.cons_append, List.nil_append]
    simp only [stdCopyGo]
    simp only [beLen_be4 n hn]
    rw [if_neg (by omega)]
  · intro frames d p tail hwf hd1 hd2 hl
    unfold stdCopy
    rw [List.append_assoc, stdCopyGo_encodeStream_append frames _ [] [] hwf]
    rw [encodeFrame]
    simp only [be4, List.cons_append, List.nil_append]
    simp only [stdCopyGo]
    simp only [beLen_be4 p.length hl]
    rw [if_pos (by simp), if_neg hd1, if_neg hd2]
  · intro cfg cid body de h
    simp [getLogs, makeRequest, transportOk, h]

/-- Witness for C4: the stream `[1,0,0,0,0,0,0,4,98]` declares a 4-byte
stdout payload but carries one byte, and decodes to the truncated error,
which `getLogs` propagates; the stream `[3,0,0,0,0,0,0,1,65]` carries
discriminator 3 and decodes to the unrecognized error. -/
theorem C4_decode_errors_witness :
    stdCopy (encodeStream [] ++ 1 :: 0 :: 0 :: 0 :: be4 4 ++ [98]) =
      .error .truncated ∧
    stdCopy (encodeStream [] ++ encodeFrame (3, [65]) ++ []) =
      .error .unrecognized ∧
    getLogs cfgDefault (transportOk [1, 0, 0, 0, 0, 0, 0, 4, 98]) "c1" =
      ([], some .decodeTruncated) := by
  have h1 := C4_decode_errors.1 [] 1 4 [98] (by decide) (by norm_num) (by norm_num)
  have h2 := C4_decode_errors.2.1 [] 3 [65] [] (by decide) (by decide) (by decide)
    (by norm_num)
  have h3 := C4_decode_errors.2.2 cfgDefault "c1" [1, 0, 0, 0, 0, 0, 0, 4, 98]
    .truncated h1
  exact ⟨h1, h2, h3⟩

/-- C5: the sleep between consecutive inspect calls in `Run`'s poll loop
is the Go expression `time.Millisecond + 100`, i.e. 1000100 nanoseconds —
about one millisecond, not approximately 100 milliseconds (the latter
would be `100 * time.Millisecond`). -/
theorem C5_sleep_interval_value :
    sleepIntervalNs = 1000100 ∧ sleepIntervalNs ≠ 100 * timeMillisecond := by
  decide

/-- C7: after `InitCmdContainer`, each recognized configuration field
equals the supplied option value when its key is present and the
documented default when absent; in particular, omitting `ContainerTag`
makes the effective tag "latest". -/
theorem C7_config_fields (opts : List (String × String)) :
    (∀ v, optsLookup opts "CommandsDir" = some v →
      (InitCmdContainer opts).CommandsDir = v) ∧
    (optsLookup opts "CommandsDir" = none →
      (InitCmdContainer opts).CommandsDir = "/root/commands") ∧
    (∀ v, optsLookup opts "DockerEndpoint" = some v →
      (InitCmdContainer opts).DockerEndpoint = v) ∧
    (optsLookup opts "DockerEndpoint" = none →
      (InitCmdContainer opts).DockerEndpoint = "unix:///var/run/docker.sock") ∧
    (∀ v, optsLookup opts "ContainerRepository" = some v →
      (InitCmdContainer opts).ContainerRepository = v) ∧
    (optsLookup opts "ContainerRepository" = none →
      (InitCmdContainer opts).ContainerRepository = "freighterio/cmd") ∧
    (∀ v, optsLookup opts "ContainerTag" = some v →
      (InitCmdContainer opts).ContainerTag = v) ∧
    (optsLookup opts "ContainerTag" = none →
      (InitCmdContainer opts).ContainerTag = "latest") := by
  refine ⟨fun v h => ?_, fun h => ?_, fun v h => ?_, fun h => ?_, fun v h => ?_,
    fun h => ?_, fun v h => ?_, fun h => ?_⟩ <;>
    simp [InitCmdContainer, h]

/-- Witness for C7: an options map supplying only `CommandsDir` yields
that directory and the default tag "latest". -/
theorem C7_config_fields_witness :
    (InitCmdContainer [("CommandsDir", "/opt/cmds")]).CommandsDir = "/opt/cmds" ∧
    (InitCmdContainer [("CommandsDir", "/opt/cmds")]).ContainerTag = "latest" := by
  have h := C7_config_fields [("CommandsDir", "/opt/cmds")]
  exact ⟨h.1 "/opt/cmds" (by decide), h.2.2.2.2.2.2.2 (by decide)⟩

/-- C9: `makeRequest` always dials the literal socket path
"/var/run/docker.sock"; the configured `DockerEndpoint` has no effect on
`makeRequest` or `getLogs`, whose results agree for any two
configurations. -/
theorem C9_socket_path_fixed (cfg cfg' : CmdConfig) (t : Transport)
    (method path cid : String) :
    (makeRequest cfg t method path).dialed = "/var/run/docker.sock" ∧
    makeRequest cfg t method path = makeRequest cfg' t method path ∧
    getLogs cfg t cid = getLogs cfg' t cid := by
  refine ⟨?_, rfl, rfl⟩
  unfold makeRequest
  rcases hd : t.dial "/var/run/docker.sock" with msg | u
  · simp [hd]
  · rcases hr : t.doResp with msg | body
    · simp [hd, hr]
    · rcases hs : stdCopy body with de | ⟨a, b⟩
      · simp [hd, hr, hs]
      · simp [hd, hr, hs]

/-- C1: if instance creation fails, `Run` returns the creation error with
no removal attempted; if creation succeeds, removal of that same instance
is invoked exactly once, as the final daemon call before `Run` returns, on
every exit path. -/
theorem C1_instance_cleanup (cfg : CmdConfig) (op : String) (args : List String)
    (o : RunOracle) (r : RunResult) (h : Run cfg op args o = some r) :
    (∀ e, o.createResult = .error e →
      r.error = some e ∧ r.events.filter Event.isRemove = []) ∧
    (∀ cid, o.createResult = .ok cid →
      r.events.filter Event.isRemove = [.remove cid] ∧
      r.events.getLast? = some (.remove cid)) := by
  unfold Run at h
  split at h
  next e heq =>
    injection h with h
    subst h
    constructor
    · intro e' he'
      rw [heq] at he'
      injection he' with he'
      subst he'
      exact ⟨rfl, rfl⟩
    · intro cid hcid
      rw [heq] at hcid
      simp at hcid
  next cid heq =>
    have hfirst : ∀ e', o.createResult = Except.error e' →
        r.error = some e' ∧ r.events.filter Event.isRemove = [] := by
      intro e' he'
      rw [heq] at he'
      exact Except.noConfusion he'
    split at h
    next e heq2 =>
      injection h with h
      subst h
      refine ⟨hfirst, fun cid' hcid => ?_⟩
      rw [heq] at hcid
      injection hcid with hcid
      subst hcid
      exact ⟨by simp [Event.isRemove], rfl⟩
    next u heq2 =>
      split at h
      next heq3 =>
        exact Option.noConfusion h
      next e n heq3 =>
        injection h with h
        subst h
        refine ⟨hfirst, fun cid' hcid => ?_⟩
        rw [heq] at hcid
        injection hcid with hcid
        subst hcid
        constructor
        · simp [List.filter_append, List.filter_replicate, Event.isRemove]
        · rw [List.getLast?_append]
          rfl
      next n heq3 =>
        split at h
        next x e heq4 =>
          injection h with h
          subst h
          refine ⟨hfirst, fun cid' hcid => ?_⟩
          rw [heq] at hcid
          injection hcid with hcid
          subst hcid
          constructor
          · simp [List.filter_append, List.filter_replicate, Event.isRemove]
          · rw [List.getLast?_append]
            rfl
        next out heq4 =>
          injection h with h
          subst h
          refine ⟨hfirst, fun cid' hcid => ?_⟩
          rw [heq] at hcid
          injection hcid with hcid
          subst hcid
          constructor
          · simp [List.filter_append, List.filter_replicate, Event.isRemove]
          · rw [List.getLast?_append]
            rfl

/-- Witness for C1: a run whose start fails after a successful create
performs exactly one removal of the created container, as its last daemon
call. -/
theorem C1_instance_cleanup_witness :
    Run cfgDefault "noop1" [] oracleStartFail = some runStartFail1 ∧
    runStartFail1.events.filter Event.isRemove = [.remove "c9"] ∧
    runStartFail1.events.getLast? = some (.remove "c9") := by
  have h : Run cfgDefault "noop1" [] oracleStartFail = some runStartFail1 := rfl
  have c := (C1_instance_cleanup cfgDefault "noop1" [] oracleStartFail
    runStartFail1 h).2 "c9" rfl
  exact ⟨h, c.1, c.2⟩

/-- C6: for every completed `Run` call, exactly one instance is created,
as the first daemon call, from the image `ContainerRepository:ContainerTag`
and with command line `["bash", CommandsDir + "/" + op + ".sh"]` followed
by the caller's arguments verbatim and in order. -/
theorem C6_create_command_line (cfg : CmdConfig) (op : String)
    (args : List String) (o : RunOracle) (r : RunResult)
    (h : Run cfg op args o = some r) :
    r.events.filter Event.isCreate =
      [.create (cfg.ContainerRepository ++ ":" ++ cfg.ContainerTag)
        (["bash", cfg.CommandsDir ++ "/" ++ op ++ ".sh"] ++ args)] ∧
    r.events.head? =
      some (.create (cfg.ContainerRepository ++ ":" ++ cfg.ContainerTag)
        (["bash", cfg.CommandsDir ++ "/" ++ op ++ ".sh"] ++ args)) := by
  unfold Run at h
  split at h
  next e heq =>
    injection h with h
    subst h
    exact ⟨by simp [Event.isCreate], rfl⟩
  next cid heq =>
    split at h
    next e heq2 =>
      injection h with h
      subst h
      exact ⟨by simp [Event.isCreate], rfl⟩
    next u heq2 =>
      split at h
      next heq3 =>
        exact Option.noConfusion h
      next e n heq3 =>
        injection h with h
        subst h
        refine ⟨?_, rfl⟩
        simp [List.filter_append, List.filter_replicate, Event.isCreate]
      next n heq3 =>
        split at h
        next x e heq4 =>
          injection h with h
          subst h
          refine ⟨?_, rfl⟩
          simp [List.filter_append, List.filter_replicate, Event.isCreate]
        next out heq4 =>
          injection h with h
          subst h
          refine ⟨?_, rfl⟩
          simp [List.filter_append, List.filter_replicate, Event.isCreate]

/-- Witness for C6: a run of operation "noop6" with arguments
`["a", "b"]` creates exactly one container, first, from the default image
and with the script path and both arguments in order. -/
theorem C6_create_command_line_witness :
    Run cfgDefault "noop6" ["a", "b"] oracleStartFail = some runStartFail6 ∧
    runStartFail6.events.filter Event.isCreate =
      [.create "freighterio/cmd:latest"
        ["bash", "/root/commands/noop6.sh", "a", "b"]] ∧
    runStartFail6.events.head? =
      some (.create "freighterio/cmd:latest"
        ["bash", "/root/commands/noop6.sh", "a", "b"]) := by
  have h : Run cfgDefault "noop6" ["a", "b"] oracleStartFail
      = some runStartFail6 := rfl
  have c := C6_create_command_line cfgDefault "noop6" ["a", "b"] oracleStartFail
    runStartFail6 h
  exact ⟨h, c.1, c.2⟩

/-- C10: whenever a completed `Run` call carries a non-nil error — the
command-execution error included — its output string is empty; any stderr
text `getLogs` produced is discarded at `Run`'s boundary. -/
theorem C10_error_empty_output (cfg : CmdConfig) (op : String)
    (args : List String) (o : RunOracle) (r : RunResult) (e : GoError)
    (h : Run cfg op args o = some r) (he : r.error = some e) :
    r.output = [] := by
  unfold Run at h
  split at h
  next e' heq =>
    injection h with h
    subst h
    rfl
  next cid heq =>
    split at h
    next e' heq2 =>
      injection h with h
      subst h
      rfl
    next u heq2 =>
      split at h
      next heq3 =>
        exact Option.noConfusion h
      next e' n heq3 =>
        injection h with h
        subst h
        rfl
      next n heq3 =>
        split at h
        next x e' heq4 =>
          injection h with h
          subst h
          rfl
        next out heq4 =>
          injection h with h
          subst h
          exact absurd he (by simp)

/-- Witness for C10: the start-failure run returns a non-nil error and
the empty output. -/
theorem C10_error_empty_output_witness :
    Run cfgDefault "noop10" [] oracleStartFail = some runStartFail10 ∧
    runStartFail10.error = some (.transport "start boom") ∧
    runStartFail10.output = [] := by
  have h : Run cfgDefault "noop10" [] oracleStartFail = some runStartFail10 := rfl
  exact ⟨h, rfl, C10_error_empty_output cfgDefault "noop10" [] oracleStartFail
    runStartFail10 (.transport "start boom") h rfl⟩

/-- C2: evaluation of the code on a script that writes only "boom" to
stderr.  `getLogs` returns the stderr text together with
`ErrCommandResponse`, but `Run`'s error guard (line 100 of `libcmd.go`,
`return "", err`) discards the payload, so `Run` returns the empty string
with the error — not the stderr text the specification promises. -/
theorem C2_stderr_payload_discarded :
    getLogs cfgDefault (transportOk boomFrame) "c1" =
      (boomBytes, some .commandResponse) ∧
    Run cfgDefault "whoops" [] oracleBoom =
      some ⟨[], some .commandResponse,
        [.create "freighterio/cmd:latest" ["bash", "/root/commands/whoops.sh"],
         .start "c1", .inspect "c1", .logs "c1", .remove "c1"]⟩ := by
  have hstd : stdCopy boomFrame = .ok ([], boomBytes) := by
    simp [stdCopy, stdCopyGo, boomFrame, boomBytes, beLen]
  have hlog : getLogs cfgDefault (transportOk boomFrame) "c1" =
      (boomBytes, some .commandResponse) := by
    simp [getLogs, makeRequest, transportOk, hstd, boomBytes]
  refine ⟨hlog, ?_⟩
  simp only [Run, oracleBoom, pollLoop]
  rw [hlog]
  simp [List.replicate]
  exact ⟨rfl, rfl⟩

/-- C8: the connection-refused classification of `makeRequest` is dead
code: no outcome of `makeRequest` ever carries
`docker.ErrConnectionRefused`, and when the dial fails with an error whose
message contains "connection refused" the raw transport error is returned
unchanged — contrary to the specified distinguished classification. -/
theorem C8_connection_refused_not_classified :
    (∀ cfg t method path,
      (makeRequest cfg t method path).error ≠ some .connectionRefused) ∧
    (∀ cfg method path msg t,
      t.dial "/var/run/docker.sock" = .error msg →
      strContainsSub msg "connection refused" = true →
      (makeRequest cfg t method path).error = some (.transport msg)) := by
  constructor
  · intro cfg t method path
    unfold makeRequest
    rcases hd : t.dial "/var/run/docker.sock" with msg | u
    · simp [hd]
    · rcases hr : t.doResp with msg | body
      · simp [hd, hr]
      · rcases hs : stdCopy body with de | ⟨a, b⟩
        · cases de <;> simp [hd, hr, hs, DecodeError.toGoError]
        · simp [hd, hr, hs]
  · intro cfg method path msg t hdial hcontains
    unfold makeRequest
    rw [hdial]

/-- Witness for C8: a dial failure whose message contains
"connection refused" surfaces as the raw transport error, not as the
distinguished connection-refused error. -/
theorem C8_connection_refused_not_classified_witness :
    (transportDialFail "connect: connection refused").dial "/var/run/docker.sock"
      = .error "connect: connection refused" ∧
    strContainsSub "connect: connection refused" "connection refused" = true ∧
    (makeRequest cfgDefault (transportDialFail "connect: connection refused")
      "GET" "/containers/c1/logs").error
      = some (.transport "connect: connection refused") := by
  refine ⟨rfl, by decide, ?_⟩
  exact C8_connection_refused_not_classified.2 cfgDefault "GET"
    "/containers/c1/logs" "connect: connection refused"
    (transportDialFail "connect: connection refused") rfl (by decide)

end Libcmd
